import Mathlib

/-!
Verification of the chromatogram munging pipeline (`src/datasets/munger.py`).

The Python functions are shallowly embedded: floats become `ℚ`, numpy arrays
become `List (List ℚ)` (a list of rows), dictionaries become association
lists, and every run-aborting failure (KeyError, IndexError, ValueError,
TypeError, AssertionError, AttributeError) becomes an `Except MungeError`
result.  Input files are modelled as the list of their data lines (the header
line, which the code skips with `next(infile)`, is not part of the input),
each line already split on the tab delimiter into its fields.  `np.save`
calls are modelled as an append-only write log of `(filename, array)` pairs;
`print` calls and the `x_count`/`y_count`/`line_counter` counters have no
observable effect and are dropped.
-/

namespace Munger

/-- A manually annotated retention window (`{'start': .., 'end': ..}` in the
source); the Python key `end` is a Lean keyword, so it is named `stop` here. -/
structure Window where
  start : ℚ
  stop : ℚ
deriving DecidableEq

/-- The annotation index `annotations[repl][seq] = window`, flattened into an
association list over the `(repl, seq)` pair. -/
abbrev Annotations := List (String × String × Window)

/-- Dictionary lookup `annotations[repl][seq]`; `none` models `KeyError`. -/
def anns_lookup (annotations : Annotations) (repl seq : String) : Option Window :=
  (annotations.find? (fun e => e.1 == repl && e.2.1 == seq)).map (fun e => e.2.2)

/-- The Python exception kinds by which a pipeline run can abort. -/
inductive MungeError where
  | indexError
  | valueError
  | keyError
  | typeError
  | assertionError
  | attributeError
deriving DecidableEq

deriving instance DecidableEq for Except

/-- Turn an optional value into a run result, raising `e` on `none`. -/
def expect {α : Type} (o : Option α) (e : MungeError) : Except MungeError α :=
  match o with
  | some a => Except.ok a
  | none => Except.error e

/-- `parse_skyline_exported_chromatogram_filenames` (munger.py lines 28-32):
`filename.split('%')`, then `filename[0].split('_')[2] +
filename[1].split('.')[0][10:]`.  `none` models the `IndexError` raised when
the `%`-split has no second segment or the first segment has fewer than three
`_`-tokens. -/
def parse_skyline_exported_chromatogram_filenames (filename : String) : Option String :=
  let parts := filename.splitOn "%"
  match parts[1]? with
  | none => none
  | some p1 =>
    match ((parts.headD "").splitOn "_")[2]? with
    | none => none
    | some t2 => some (t2 ++ (((p1.splitOn ".").headD "").drop 10))

/-- Decimal rational parser for a non-negative numeric token, covering the
plain `digits` and `digits.digits` forms that the concrete inputs use; it is
the subset of `np.float_`'s numeric grammar needed here, and rejects anything
else. -/
def parseRatNonneg (s : String) : Option ℚ :=
  match s.splitOn "." with
  | [a] => (a.toNat?).map (fun n => (n : ℚ))
  | [a, b] =>
    match a.toNat?, b.toNat? with
    | some n, some f => some ((n : ℚ) + (f : ℚ) / ((10 : ℚ) ^ b.length))
    | _, _ => none
  | _ => none

/-- Signed decimal parser (see `parseRatNonneg`). -/
def parseRat (s : String) : Option ℚ :=
  if s.startsWith "-" then (parseRatNonneg (s.drop 1)).map (fun q => -q)
  else parseRatNonneg s

/-- `np.float_(field.split(','))`: split a comma-joined field and parse every
token; `none` models the `ValueError` on any non-numeric token. -/
def parseFloatList (s : String) : Option (List ℚ) :=
  (s.splitOn ",").mapM parseRat

/-- The per-line fields every pipeline extracts before branching
(munger.py lines 51-56): replicate id decoded from the filename field,
sequence, charge, and the parsed intensity list. -/
structure ParsedFields where
  repl : String
  seq : String
  charge : String
  ints : List ℚ
deriving DecidableEq

/-- The shared row-parsing prefix of all three pipelines (munger.py lines
49-56): check `line[1] != '#N/A'` (a sentinel row is skipped, `ok none`),
decode the replicate id from `line[0]`, and parse the intensity list from
`line[9]`.  Missing fields model `IndexError`, a malformed intensity list
models `ValueError`. -/
def parse_line_fields (line : List String) : Except MungeError (Option ParsedFields) :=
  match (line)[1]? with
  | none => Except.error MungeError.indexError
  | some seqF =>
    if seqF = "#N/A" then Except.ok none
    else
      match (line)[0]? with
      | none => Except.error MungeError.indexError
      | some fname =>
        match parse_skyline_exported_chromatogram_filenames fname with
        | none => Except.error MungeError.indexError
        | some repl =>
          match (line)[9]? with
          | none => Except.error MungeError.indexError
          | some intsF =>
            match parseFloatList intsF with
            | none => Except.error MungeError.valueError
            | some ints =>
              match (line)[2]? with
              | none => Except.error MungeError.indexError
              | some charge => Except.ok (some ⟨repl, seqF, charge, ints⟩)

/-- `np.float_(line[8].split(','))` (munger.py line 84 and analogues): the
time axis, parsed only when a new group is opened. -/
def parse_times (line : List String) : Except MungeError (List ℚ) :=
  match (line)[8]? with
  | none => Except.error MungeError.indexError
  | some timesF =>
    match parseFloatList timesF with
    | none => Except.error MungeError.valueError
    | some times => Except.ok times

/-- The new-group condition shared by all three pipelines (munger.py lines
58-60): `seq != last_seq or charge != last_charge or trace_counter == 6`. -/
def opens_new_group (last_seq last_charge : String) (trace_counter : ℕ)
    (seq charge : String) : Bool :=
  seq != last_seq || charge != last_charge || trace_counter == 6

/-- `np.max(chromatogram.shape)`: the larger of the row count and the row
length of the accumulated 2-D array (for the 1-row case the Python array is
1-D of shape `(L,)`, whose max is likewise the row length). -/
def npMaxShape (c : List (List ℚ)) : ℕ := max c.length (c.headD []).length

/-- `np.vstack((c, row))`: append one row, failing with `ValueError` when the
row length does not match the existing column count. -/
def vstack (c : List (List ℚ)) (row : List ℚ) : Except MungeError (List (List ℚ)) :=
  if (c.headD row).length = row.length then Except.ok (c ++ [row])
  else Except.error MungeError.valueError

/-- The padding loop body (munger.py lines 71-75 and analogues):
`for i in range(n): chromatogram = np.vstack((chromatogram, np.zeros((1,
np.max(chromatogram.shape)))))`, with `np.max(chromatogram.shape)` recomputed
on each iteration. -/
def padLoop : List (List ℚ) → ℕ → Except MungeError (List (List ℚ))
  | c, 0 => Except.ok c
  | c, n + 1 =>
    match vstack c (List.replicate (npMaxShape c) 0) with
    | Except.error e => Except.error e
    | Except.ok c2 => padLoop c2 n

/-- Group padding on close (munger.py lines 70-76, 165-170, 229-234,
286-291, 369-374): `if trace_counter < 6:` run the padding loop
`6 - trace_counter` times. -/
def padChromatogram (c : List (List ℚ)) (trace_counter : ℕ) :
    Except MungeError (List (List ℚ)) :=
  if trace_counter < 6 then padLoop c (6 - trace_counter) else Except.ok c

/-- The point-label loop (munger.py lines 88-92, 190-194, 329-333): one label
per time point, `1` iff `anno['start'] <= time <= anno['end']`. -/
def derive_point_labels (anno : Window) (times : List ℚ) : List ℕ :=
  times.map (fun time => if anno.start ≤ time ∧ time ≤ anno.stop then 1 else 0)

/-- `(row_labels[i:i + subsection_width] == 1).sum()`: the number of `1`s in
the window of `subsection_width` points starting at offset `i`. -/
def subsection_positive_count (row_labels : List ℕ) (i subsection_width : ℕ) : ℕ :=
  ((row_labels.drop i).take subsection_width).count 1

/-- The window-label rule for one window (munger.py lines 205-210): `1` iff
`num_positive_in_subsection >= positive_percentage * num_positive` or
`num_positive_in_subsection == subsection_width`. -/
def window_label_at (row_labels : List ℕ) (subsection_width : ℕ)
    (positive_percentage : ℚ) (num_positive : ℕ) (i : ℕ) : ℕ :=
  if (subsection_positive_count row_labels i subsection_width : ℚ) ≥
        positive_percentage * (num_positive : ℚ) ∨
      subsection_positive_count row_labels i subsection_width = subsection_width
  then 1 else 0

/-- The sliding-window labelling loop (munger.py lines 200-211): `i` starts at
`0` and advances by `step_size` while `i + subsection_width <= numTimes`.  The
`fuel` argument only bounds the iteration count so that the recursion is
structural; `numTimes + 1` units are exact for any `step_size ≥ 1` (each
iteration consumes one unit and raises `i` by at least one, and the guard can
no longer hold after `numTimes + 1` iterations).  For `step_size = 0` the
Python loop never terminates, which has no counterpart here. -/
def windows_loop (row_labels : List ℕ) (subsection_width step_size numTimes : ℕ)
    (positive_percentage : ℚ) (num_positive : ℕ) : ℕ → ℕ → List ℕ
  | 0, _ => []
  | fuel + 1, i =>
    if i + subsection_width ≤ numTimes then
      window_label_at row_labels subsection_width positive_percentage num_positive i ::
        windows_loop row_labels subsection_width step_size numTimes positive_percentage
          num_positive fuel (i + step_size)
    else []

/-- The full window-label derivation for one group (munger.py lines 198-211):
`num_positive = (row_labels == 1).sum()`, then slide over the time axis.
`numTimes` is `times.shape[0]`, the bound the source loop uses. -/
def derive_window_labels (row_labels : List ℕ) (numTimes subsection_width step_size : ℕ)
    (positive_percentage : ℚ) : List ℕ :=
  windows_loop row_labels subsection_width step_size numTimes positive_percentage
    (row_labels.count 1) (numTimes + 1) 0

/-- The loop-local state of
`parse_and_label_skyline_exported_chromatograms_lstm` (munger.py lines
40-45), together with the write log of its `np.save` calls. -/
structure LstmState where
  last_seq : String
  last_repl : String
  last_charge : String
  trace_counter : ℕ
  chromatogram : Option (List (List ℚ))
  chromatograms : List (ℕ × String)
  labels : List (List ℕ)
  chromatogram_id : ℕ
  saved : List (String × List (List ℚ))
deriving DecidableEq

def initLstmState : LstmState := ⟨"", "", "", 0, none, [], [], 0, []⟩

/-- The value `(chromatograms, np.array(labels))` returned by the lstm
pipeline, plus its `np.save` write log. -/
structure LstmOutput where
  chromatograms : List (ℕ × String)
  labels : List (List ℕ)
  saved : List (String × List (List ℚ))
deriving DecidableEq

/-- Closing the active group mid-stream in the lstm pipeline (munger.py lines
61-79): emit the manifest row `(chromatogram_id, '_'.join([last_seq,
last_repl, last_charge]))`, bump the id, pad, save the transposed array, and
check `assert chromatogram.T.shape[0] == len(labels[-1])`.  All effects of a
close are visible only if the whole close succeeds (an exception aborts the
run before anything is observable), so the order of record updates relative
to the error checks is collapsed. -/
def lstm_close (st : LstmState) (c : List (List ℚ)) : Except MungeError LstmState :=
  let chromatogram_filename :=
    String.intercalate "_" [st.last_seq, st.last_repl, st.last_charge]
  match padChromatogram c st.trace_counter with
  | Except.error e => Except.error e
  | Except.ok padded =>
    match st.labels.getLast? with
    | none => Except.error MungeError.indexError
    | some lastLabel =>
      if (padded.transpose).length = lastLabel.length then
        Except.ok { st with
          chromatograms := st.chromatograms ++ [(st.chromatogram_id, chromatogram_filename)],
          chromatogram_id := st.chromatogram_id + 1,
          saved := st.saved ++ [(chromatogram_filename, padded.transpose)] }
      else Except.error MungeError.assertionError

/-- Opening a new group in the lstm pipeline (munger.py lines 81-96): seed
the chromatogram with this row's intensities, parse the time axis, look up
the annotation (`KeyError` on a miss), derive and append the point labels,
and remember the key. -/
def lstm_open (annotations : Annotations) (st : LstmState) (line : List String)
    (f : ParsedFields) : Except MungeError LstmState :=
  match parse_times line with
  | Except.error e => Except.error e
  | Except.ok times =>
    match expect (anns_lookup annotations f.repl f.seq) MungeError.keyError with
    | Except.error e => Except.error e
    | Except.ok anno =>
      Except.ok { st with
        chromatogram := some [f.ints],
        trace_counter := 1,
        labels := st.labels ++ [derive_point_labels anno times],
        last_seq := f.seq,
        last_repl := f.repl,
        last_charge := f.charge }

/-- One loop iteration of the lstm pipeline (munger.py lines 47-107): skip
sentinel rows, otherwise either close-and-open or append to the active
group (`np.vstack((None, ints))` on a first row whose key equals the initial
sentinel key raises, modelled as `typeError`). -/
def lstm_step (annotations : Annotations) (st : LstmState) (line : List String) :
    Except MungeError LstmState :=
  match parse_line_fields line with
  | Except.error e => Except.error e
  | Except.ok none => Except.ok st
  | Except.ok (some f) =>
    if opens_new_group st.last_seq st.last_charge st.trace_counter f.seq f.charge then
      match (match st.chromatogram with
             | some c => lstm_close st c
             | none => Except.ok st) with
      | Except.error e => Except.error e
      | Except.ok st1 => lstm_open annotations st1 line f
    else
      match st.chromatogram with
      | none => Except.error MungeError.typeError
      | some c =>
        match vstack c f.ints with
        | Except.error e => Except.error e
        | Except.ok c2 =>
          Except.ok { st with chromatogram := some c2, trace_counter := st.trace_counter + 1 }

/-- The unconditional end-of-input flush of the lstm pipeline (munger.py
lines 109-124): emit the final manifest row, pad and save the final group.
With no active group (`chromatogram is None`), `np.max(chromatogram.shape)`
raises `AttributeError`. -/
def lstm_flush (st : LstmState) : Except MungeError LstmOutput :=
  let chromatogram_filename :=
    String.intercalate "_" [st.last_seq, st.last_repl, st.last_charge]
  match st.chromatogram with
  | none => Except.error MungeError.attributeError
  | some c =>
    match padChromatogram c st.trace_counter with
    | Except.error e => Except.error e
    | Except.ok padded =>
      Except.ok {
        chromatograms := st.chromatograms ++ [(st.chromatogram_id, chromatogram_filename)],
        labels := st.labels,
        saved := st.saved ++ [(chromatogram_filename, padded.transpose)] }

/-- `parse_and_label_skyline_exported_chromatograms_lstm` (munger.py lines
34-124) over the data lines of the trace export (header already skipped). -/
def parse_and_label_skyline_exported_chromatograms_lstm
    (lines : List (List String)) (annotations : Annotations) :
    Except MungeError LstmOutput :=
  match lines.foldlM (lstm_step annotations) initLstmState with
  | Except.error e => Except.error e
  | Except.ok st => lstm_flush st

/-- The loop-local state of
`parse_and_label_skyline_exported_chromatograms_cnn` (munger.py lines
137-145) and of the subsection variant, with the `np.save` write log. -/
structure CnnState where
  last_seq : String
  last_repl : String
  last_charge : String
  trace_counter : ℕ
  chromatogram : Option (List (List ℚ))
  chromatogram_labels : List ℕ
  label_matrix : List (List ℕ)
  chromatograms : List (ℕ × String)
  chromatogram_id : ℕ
  saved : List (String × List (List ℚ))
deriving DecidableEq

def initCnnState : CnnState := ⟨"", "", "", 0, none, [], [], [], 0, []⟩

/-- The value `(chromatograms, label_matrix)` returned by the cnn pipeline,
plus its `np.save` write log. -/
structure CnnOutput where
  chromatograms : List (ℕ × String)
  label_matrix : List (List ℕ)
  saved : List (String × List (List ℚ))
deriving DecidableEq

/-- Closing the active group in the cnn pipeline (munger.py lines 161-180):
pad, emit the manifest row, save the (untransposed) array, bump the id and
reset `chromatogram_labels`. -/
def cnn_close (st : CnnState) (c : List (List ℚ)) : Except MungeError CnnState :=
  let chromatogram_filename :=
    String.intercalate "_" [st.last_seq, st.last_repl, st.last_charge]
  match padChromatogram c st.trace_counter with
  | Except.error e => Except.error e
  | Except.ok padded =>
    Except.ok { st with
      chromatograms := st.chromatograms ++ [(st.chromatogram_id, chromatogram_filename)],
      chromatogram_id := st.chromatogram_id + 1,
      saved := st.saved ++ [(chromatogram_filename, padded)],
      chromatogram_labels := [] }

/-- Opening a new group in the cnn pipeline (munger.py lines 182-214): seed
the chromatogram, derive point labels, extend `chromatogram_labels` with this
group's window labels and append the result to `label_matrix`. -/
def cnn_open (annotations : Annotations) (subsection_width step_size : ℕ)
    (positive_percentage : ℚ) (st : CnnState) (line : List String) (f : ParsedFields) :
    Except MungeError CnnState :=
  match parse_times line with
  | Except.error e => Except.error e
  | Except.ok times =>
    match expect (anns_lookup annotations f.repl f.seq) MungeError.keyError with
    | Except.error e => Except.error e
    | Except.ok anno =>
      let row_labels := derive_point_labels anno times
      let new_labels := st.chromatogram_labels ++
        derive_window_labels row_labels times.length subsection_width step_size
          positive_percentage
      Except.ok { st with
        chromatogram := some [f.ints],
        trace_counter := 1,
        chromatogram_labels := new_labels,
        label_matrix := st.label_matrix ++ [new_labels],
        last_seq := f.seq,
        last_repl := f.repl,
        last_charge := f.charge }

/-- One loop iteration of the cnn pipeline (munger.py lines 147-225). -/
def cnn_step (annotations : Annotations) (subsection_width step_size : ℕ)
    (positive_percentage : ℚ) (st : CnnState) (line : List String) :
    Except MungeError CnnState :=
  match parse_line_fields line with
  | Except.error e => Except.error e
  | Except.ok none => Except.ok st
  | Except.ok (some f) =>
    if opens_new_group st.last_seq st.last_charge st.trace_counter f.seq f.charge then
      match (match st.chromatogram with
             | some c => cnn_close st c
             | none => Except.ok st) with
      | Except.error e => Except.error e
      | Except.ok st1 => cnn_open annotations subsection_width step_size positive_percentage st1 line f
    else
      match st.chromatogram with
      | none => Except.error MungeError.typeError
      | some c =>
        match vstack c f.ints with
        | Except.error e => Except.error e
        | Except.ok c2 =>
          Except.ok { st with chromatogram := some c2, trace_counter := st.trace_counter + 1 }

/-- The unconditional end-of-input flush of the cnn pipeline (munger.py lines
227-246). -/
def cnn_flush (st : CnnState) : Except MungeError CnnOutput :=
  let chromatogram_filename :=
    String.intercalate "_" [st.last_seq, st.last_repl, st.last_charge]
  match st.chromatogram with
  | none => Except.error MungeError.attributeError
  | some c =>
    match padChromatogram c st.trace_counter with
    | Except.error e => Except.error e
    | Except.ok padded =>
      Except.ok {
        chromatograms := st.chromatograms ++ [(st.chromatogram_id, chromatogram_filename)],
        label_matrix := st.label_matrix,
        saved := st.saved ++ [(chromatogram_filename, padded)] }

/-- `parse_and_label_skyline_exported_chromatograms_cnn` (munger.py lines
126-246) over the data lines of the trace export. -/
def parse_and_label_skyline_exported_chromatograms_cnn
    (lines : List (List String)) (annotations : Annotations)
    (subsection_width step_size : ℕ) (positive_percentage : ℚ) :
    Except MungeError CnnOutput :=
  match lines.foldlM (cnn_step annotations subsection_width step_size positive_percentage)
      initCnnState with
  | Except.error e => Except.error e
  | Except.ok st => cnn_flush st

/-- The manifest table of the subsection pipeline: rows
`[chromatogram_id, filename, label]`. -/
abbrev SubManifest := List (ℕ × String × ℕ)

/-- The value `chromatograms` returned by the subsection pipeline, plus its
`np.save` write log. -/
structure SubOutput where
  chromatograms : SubManifest
  saved : List (String × List (List ℚ))
deriving DecidableEq

/-- The subsection emission loop (munger.py lines 293-317 for the mid-stream
close, lines 376-399 for the final flush, which differ only in the loop
guard: `i + subsection_width <= chromatogram.shape[1]` mid-stream but `<` at
flush, selected by `strict`).  Each iteration appends the manifest row
`[chromatogram_id, root + '_' + str(i) + '_to_' + str(i + width - 1),
chromatogram_labels[j]]` (an out-of-range `j` models `IndexError`), then
increments `i` and `j`, and only then saves `chromatogram[:, i:i + width]` —
so the saved slice starts at the incremented offset `i + step_size`, exactly
as in the source.  The `fuel` argument only makes the recursion structural;
`numCols + 1` units are exact for any `step_size ≥ 1` (the Python loop does
not terminate when `step_size = 0`). -/
def sub_emit_loop (chromatogram_filename_root : String) (padded : List (List ℚ))
    (chromatogram_labels : List ℕ) (subsection_width step_size numCols chromatogram_id : ℕ)
    (strict : Bool) :
    ℕ → ℕ → ℕ → SubManifest → List (String × List (List ℚ)) →
    Except MungeError (SubManifest × List (String × List (List ℚ)))
  | 0, _, _, manifest, saved => Except.ok (manifest, saved)
  | fuel + 1, i, j, manifest, saved =>
    if (if strict then i + subsection_width < numCols else i + subsection_width ≤ numCols) then
      let chromatogram_filename := String.intercalate "_"
        [chromatogram_filename_root, toString i, "to", toString (i + subsection_width - 1)]
      match chromatogram_labels[j]? with
      | none => Except.error MungeError.indexError
      | some l =>
        sub_emit_loop chromatogram_filename_root padded chromatogram_labels subsection_width
          step_size numCols chromatogram_id strict fuel (i + step_size) (j + 1)
          (manifest ++ [(chromatogram_id,
            chromatogram_filename_root ++ "_" ++ toString i ++ "_to_"
              ++ toString (i + subsection_width - 1), l)])
          (saved ++ [(chromatogram_filename,
            padded.map (fun r => (r.drop (i + step_size)).take subsection_width))])
    else Except.ok (manifest, saved)

/-- The loop-local state of the subsection pipeline (munger.py lines
255-266); it has no `label_matrix`. -/
structure SubState where
  last_seq : String
  last_repl : String
  last_charge : String
  trace_counter : ℕ
  chromatogram : Option (List (List ℚ))
  chromatogram_labels : List ℕ
  chromatograms : SubManifest
  chromatogram_id : ℕ
  saved : List (String × List (List ℚ))
deriving DecidableEq

def initSubState : SubState := ⟨"", "", "", 0, none, [], [], 0, []⟩

/-- Closing the active group in the subsection pipeline (munger.py lines
282-319): pad, run the (non-strict) emission loop over the padded array's
column count, bump the id and reset `chromatogram_labels`. -/
def sub_close (subsection_width step_size : ℕ) (st : SubState) (c : List (List ℚ)) :
    Except MungeError SubState :=
  let chromatogram_filename_root :=
    String.intercalate "_" [st.last_seq, st.last_repl, st.last_charge]
  match padChromatogram c st.trace_counter with
  | Except.error e => Except.error e
  | Except.ok padded =>
    match sub_emit_loop chromatogram_filename_root padded st.chromatogram_labels
        subsection_width step_size ((padded.headD []).length) st.chromatogram_id false
        ((padded.headD []).length + 1) 0 0 st.chromatograms st.saved with
    | Except.error e => Except.error e
    | Except.ok (manifest, saved) =>
      Except.ok { st with
        chromatograms := manifest,
        saved := saved,
        chromatogram_id := st.chromatogram_id + 1,
        chromatogram_labels := [] }

/-- Opening a new group in the subsection pipeline (munger.py lines 321-353):
like `cnn_open` but without a `label_matrix`. -/
def sub_open (annotations : Annotations) (subsection_width step_size : ℕ)
    (positive_percentage : ℚ) (st : SubState) (line : List String) (f : ParsedFields) :
    Except MungeError SubState :=
  match parse_times line with
  | Except.error e => Except.error e
  | Except.ok times =>
    match expect (anns_lookup annotations f.repl f.seq) MungeError.keyError with
    | Except.error e => Except.error e
    | Except.ok anno =>
      let row_labels := derive_point_labels anno times
      Except.ok { st with
        chromatogram := some [f.ints],
        trace_counter := 1,
        chromatogram_labels := st.chromatogram_labels ++
          derive_window_labels row_labels times.length subsection_width step_size
            positive_percentage,
        last_seq := f.seq,
        last_repl := f.repl,
        last_charge := f.charge }

/-- One loop iteration of the subsection pipeline (munger.py lines 268-364). -/
def sub_step (annotations : Annotations) (subsection_width step_size : ℕ)
    (positive_percentage : ℚ) (st : SubState) (line : List String) :
    Except MungeError SubState :=
  match parse_line_fields line with
  | Except.error e => Except.error e
  | Except.ok none => Except.ok st
  | Except.ok (some f) =>
    if opens_new_group st.last_seq st.last_charge st.trace_counter f.seq f.charge then
      match (match st.chromatogram with
             | some c => sub_close subsection_width step_size st c
             | none => Except.ok st) with
      | Except.error e => Except.error e
      | Except.ok st1 => sub_open annotations subsection_width step_size positive_percentage st1 line f
    else
      match st.chromatogram with
      | none => Except.error MungeError.typeError
      | some c =>
        match vstack c f.ints with
        | Except.error e => Except.error e
        | Except.ok c2 =>
          Except.ok { st with chromatogram := some c2, trace_counter := st.trace_counter + 1 }

/-- The unconditional end-of-input flush of the subsection pipeline
(munger.py lines 366-403); its emission loop uses the strict guard
`i + subsection_width < chromatogram.shape[1]`, and the function returns
only the manifest (no label matrix). -/
def sub_flush (subsection_width step_size : ℕ) (st : SubState) :
    Except MungeError SubOutput :=
  let chromatogram_filename_root :=
    String.intercalate "_" [st.last_seq, st.last_repl, st.last_charge]
  match st.chromatogram with
  | none => Except.error MungeError.attributeError
  | some c =>
    match padChromatogram c st.trace_counter with
    | Except.error e => Except.error e
    | Except.ok padded =>
      match sub_emit_loop chromatogram_filename_root padded st.chromatogram_labels
          subsection_width step_size ((padded.headD []).length) st.chromatogram_id true
          ((padded.headD []).length + 1) 0 0 st.chromatograms st.saved with
      | Except.error e => Except.error e
      | Except.ok (manifest, saved) =>
        Except.ok { chromatograms := manifest, saved := saved }

/-- `parse_and_label_skyline_exported_chromatogram_subsections_cnn`
(munger.py lines 248-403) over the data lines of the trace export. -/
def parse_and_label_skyline_exported_chromatogram_subsections_cnn
    (lines : List (List String)) (annotations : Annotations)
    (subsection_width step_size : ℕ) (positive_percentage : ℚ) :
    Except MungeError SubOutput :=
  match lines.foldlM (sub_step annotations subsection_width step_size positive_percentage)
      initSubState with
  | Except.error e => Except.error e
  | Except.ok st => sub_flush subsection_width step_size st

/-- A data line of the trace export with the fields the pipelines read:
field 0 the structured filename, field 1 the sequence, field 2 the charge,
field 8 the comma-joined times, field 9 the comma-joined intensities. -/
def traceLine (fname seq charge times ints : String) : List String :=
  [fname, seq, charge, "", "", "", "", "", times, ints]

/-- A dense zero-based manifest: the ids column is `0, 1, ..., length - 1`. -/
def manifest_ids_dense (m : List (ℕ × String)) (n : ℕ) : Prop :=
  n = m.length ∧ m.map Prod.fst = List.range m.length

/-- Every row of the `g`-th block carries id `g`. -/
def blocks_ids_ok (blocks : List SubManifest) : Prop :=
  ∀ g, ∀ r ∈ blocks.getD g [], r.1 = g

/-- A subsection manifest split into consecutive per-group blocks, the rows
of the `g`-th closed group all carrying id `g`. -/
def grouped_ids (m : SubManifest) (n : ℕ) : Prop :=
  ∃ blocks : List SubManifest, m = blocks.flatten ∧ blocks.length = n ∧ blocks_ids_ok blocks

/-- Annotation index for the concrete runs below: only the pair (replicate
"c", sequence "A") is annotated, with the zero window.  The replicate id of
filename `x_y_c%z.w` decodes to `c`. -/
def annAc : Annotations := [("c", "A", ⟨0, 0⟩)]

/-- One closed group of 6 traces over a 4-point time axis: the input for
evaluating the subsection pipeline at its failing input. -/
def c1lines : List (List String) :=
  [traceLine "x_y_c%z.w" "A" "1" "1,2,3,4" "1,2,3,4",
   traceLine "x_y_c%z.w" "A" "1" "1,2,3,4" "11,12,13,14",
   traceLine "x_y_c%z.w" "A" "1" "1,2,3,4" "21,22,23,24",
   traceLine "x_y_c%z.w" "A" "1" "1,2,3,4" "31,32,33,34",
   traceLine "x_y_c%z.w" "A" "1" "1,2,3,4" "41,42,43,44",
   traceLine "x_y_c%z.w" "A" "1" "1,2,3,4" "51,52,53,54"]

/-- The trace rows of `c1lines` as the group array the pipeline accumulates. -/
def c1rows : List (List ℚ) :=
  [[1, 2, 3, 4], [11, 12, 13, 14], [21, 22, 23, 24],
   [31, 32, 33, 34], [41, 42, 43, 44], [51, 52, 53, 54]]

/-- What the subsection pipeline actually produces on `c1lines` with width 2
and step 2: a single sample named `A_c_1_0_to_1` whose array is the slice at
columns 2..3. -/
def c1out : SubOutput :=
  ⟨[(0, "A_c_1_0_to_1", 1)],
   [("A_c_1_0_to_1", [[3, 4], [13, 14], [23, 24], [33, 34], [43, 44], [53, 54]])]⟩

/-- A single trace row over a 6-point time axis: with width 2 and step 2 the
final flush emits two subsections. -/
def c2lines : List (List String) :=
  [traceLine "x_y_c%z.w" "A" "1" "1,2,3,4,5,6" "1,2,3,4,5,6"]

/-- The subsection pipeline's output on `c2lines`: both manifest rows carry
id 0. -/
def c2out : SubOutput :=
  ⟨[(0, "A_c_1_0_to_1", 1), (0, "A_c_1_2_to_3", 1)],
   [("A_c_1_0_to_1", [[3, 4], [0, 0], [0, 0], [0, 0], [0, 0], [0, 0]]),
    ("A_c_1_2_to_3", [[5, 6], [0, 0], [0, 0], [0, 0], [0, 0], [0, 0]])]⟩

/-- Annotation index with both sequences of the grouping example annotated. -/
def c7ann : Annotations := [("c", "A", ⟨0, 0⟩), ("c", "B", ⟨0, 0⟩)]

/-- The grouping example: 7 rows with key (A, 1) followed by 2 rows with key
(B, 1), over a 5-point time axis. -/
def c7lines : List (List String) :=
  [traceLine "x_y_c%z.w" "A" "1" "1,2,3,4,5" "1,1,1,1,1",
   traceLine "x_y_c%z.w" "A" "1" "1,2,3,4,5" "2,2,2,2,2",
   traceLine "x_y_c%z.w" "A" "1" "1,2,3,4,5" "3,3,3,3,3",
   traceLine "x_y_c%z.w" "A" "1" "1,2,3,4,5" "4,4,4,4,4",
   traceLine "x_y_c%z.w" "A" "1" "1,2,3,4,5" "5,5,5,5,5",
   traceLine "x_y_c%z.w" "A" "1" "1,2,3,4,5" "6,6,6,6,6",
   traceLine "x_y_c%z.w" "A" "1" "1,2,3,4,5" "7,7,7,7,7",
   traceLine "x_y_c%z.w" "B" "1" "1,2,3,4,5" "8,8,8,8,8",
   traceLine "x_y_c%z.w" "B" "1" "1,2,3,4,5" "9,9,9,9,9"]

/-- The lstm pipeline's output on `c7lines`: three groups of 6, 1 and 2 real
rows (visible in the transposed saved arrays), manifest ids 0, 1, 2. -/
def c7out : LstmOutput :=
  ⟨[(0, "A_c_1"), (1, "A_c_1"), (2, "B_c_1")],
   [[0, 0, 0, 0, 0], [0, 0, 0, 0, 0], [0, 0, 0, 0, 0]],
   [("A_c_1", List.replicate 5 [1, 2, 3, 4, 5, 6]),
    ("A_c_1", List.replicate 5 [7, 0, 0, 0, 0, 0]),
    ("B_c_1", List.replicate 5 [8, 9, 0, 0, 0, 0])]⟩

/-- Two rows with the same (sequence, charge) key but different replicate
ids; the second row's (replicate, sequence) pair is absent from `annAc`. -/
def c8lines : List (List String) :=
  [traceLine "x_y_c%z.w" "A" "1" "1,2,3,4,5" "1,1,1,1,1",
   traceLine "x_y_Q%z.w" "A" "1" "1,2,3,4,5" "2,2,2,2,2"]

/-- The lstm pipeline's output on `c8lines`: the run completes, one group of
two traces. -/
def c8out : LstmOutput :=
  ⟨[(0, "A_c_1")], [[0, 0, 0, 0, 0]],
   [("A_c_1", List.replicate 5 [1, 2, 0, 0, 0, 0])]⟩

/-- A trace row with 5 time points but 6 intensity values. -/
def c9line : List String := traceLine "x_y_c%z.w" "A" "1" "1,2,3,4,5" "1,1,1,1,1,1"

/-- A mid-run lstm state with an active group keyed (A, c, 1) holding one
trace of length 2. -/
def c8wstate : LstmState := ⟨"A", "c", "1", 1, some [[1, 1]], [], [[0, 0]], 0, []⟩

/-- A group-opening row followed by an extending row (same sequence and
charge) whose time field is the non-numeric `garbage,!!`. -/
def c9blines : List (List String) :=
  [traceLine "x_y_c%z.w" "A" "1" "1,2,3,4,5" "1,1,1,1,1",
   traceLine "x_y_c%z.w" "A" "1" "garbage,!!" "2,2,2,2,2"]

/-- The lstm pipeline's output on `c9blines`: the run completes — the second
row's time field is never parsed because the row only extends the active
group. -/
def c9bout : LstmOutput :=
  ⟨[(0, "A_c_1")], [[0, 0, 0, 0, 0]],
   [("A_c_1", List.replicate 5 [1, 2, 0, 0, 0, 0])]⟩

/-- The cnn pipeline's output on the mismatched row `c9line` (width 2,
step 1): the run completes and persists the row. -/
def c9out : CnnOutput :=
  ⟨[(0, "A_c_1")], [[1, 1, 1, 1]],
   [("A_c_1", [[1, 1, 1, 1, 1, 1]] ++ List.replicate 5 (List.replicate 6 0))]⟩

end Munger

namespace Munger

lemma windows_loop_getD (row_labels : List ℕ) (w s L : ℕ) (pct : ℚ) (np : ℕ) :
    ∀ (fuel i j : ℕ), j < (windows_loop row_labels w s L pct np fuel i).length →
      (windows_loop row_labels w s L pct np fuel i).getD j 2 =
        window_label_at row_labels w pct np (i + j * s) := by
  intro fuel
  induction fuel with
  | zero => intro i j h; simp [windows_loop] at h
  | succ n ih =>
    intro i j h
    simp only [windows_loop] at h ⊢
    by_cases hg : i + w ≤ L
    · rw [if_pos hg] at h ⊢
      match j with
      | 0 => simp
      | j + 1 =>
        rw [List.getD_cons_succ]
        have harith : i + s + j * s = i + (j + 1) * s := by ring
        rw [← harith]
        apply ih
        simpa using Nat.lt_of_succ_lt_succ h
    · rw [if_neg hg] at h
      simp at h

lemma windows_loop_mem (row_labels : List ℕ) (w s L : ℕ) (pct : ℚ) (np : ℕ) :
    ∀ (fuel i : ℕ) (x : ℕ), x ∈ windows_loop row_labels w s L pct np fuel i →
      ∃ k, x = window_label_at row_labels w pct np k := by
  intro fuel
  induction fuel with
  | zero => intro i x h; simp [windows_loop] at h
  | succ n ih =>
    intro i x h
    simp only [windows_loop] at h
    by_cases hg : i + w ≤ L
    · rw [if_pos hg] at h
      rcases List.mem_cons.mp h with h1 | h2
      · exact ⟨i, h1⟩
      · exact ih (i + s) x h2
    · rw [if_neg hg] at h
      simp at h

lemma window_label_at_eq_one (row_labels : List ℕ) (w : ℕ) (pct : ℚ) (np i : ℕ) :
    window_label_at row_labels w pct np i = 1 ↔
      ((subsection_positive_count row_labels i w : ℚ) ≥ pct * (np : ℚ) ∨
        subsection_positive_count row_labels i w = w) := by
  unfold window_label_at
  split
  case isTrue h => simpa using h
  case isFalse h => simpa using h

lemma pad_rows_len {c : List (List ℚ)} {L : ℕ} (hlen : ∀ r ∈ c, r.length = L) :
    ∀ r ∈ c ++ [List.replicate L (0 : ℚ)], r.length = L := by
  intro r hr
  rcases List.mem_append.mp hr with h1 | h2
  · exact hlen r h1
  · rw [List.mem_singleton.mp h2]; simp

lemma padLoop_ok_eq :
    ∀ (n : ℕ) (c : List (List ℚ)) (L : ℕ), c ≠ [] → (∀ r ∈ c, r.length = L) →
      ∀ p, padLoop c n = Except.ok p →
        p = c ++ List.replicate n (List.replicate L 0) := by
  intro n
  induction n with
  | zero =>
    intro c L _ _ p hp
    simp only [padLoop] at hp
    cases hp
    simp
  | succ m ih =>
    intro c L hne hlen p hp
    obtain ⟨r0, rest, rfl⟩ : ∃ r0 rest, c = r0 :: rest := by
      cases c with
      | nil => exact absurd rfl hne
      | cons a l => exact ⟨a, l, rfl⟩
    have hr0 : r0.length = L := hlen r0 (List.mem_cons_self r0 rest)
    simp only [padLoop] at hp
    by_cases hcl : (r0 :: rest).length ≤ L
    · have hmax : npMaxShape (r0 :: rest) = L := by
        unfold npMaxShape
        rw [List.headD_cons, hr0]
        exact max_eq_right hcl
      have hvs : vstack (r0 :: rest) (List.replicate (npMaxShape (r0 :: rest)) 0) =
          Except.ok ((r0 :: rest) ++ [List.replicate L (0 : ℚ)]) := by
        unfold vstack
        rw [hmax, if_pos (by simp [hr0])]
      rw [hvs] at hp
      have := ih ((r0 :: rest) ++ [List.replicate L (0 : ℚ)]) L (by simp)
        (pad_rows_len hlen) p hp
      rw [this, List.append_assoc]
      congr 1
    · have hmax : npMaxShape (r0 :: rest) = (r0 :: rest).length := by
        unfold npMaxShape
        rw [List.headD_cons, hr0]
        exact max_eq_left (by omega)
      have hvs : vstack (r0 :: rest) (List.replicate (npMaxShape (r0 :: rest)) 0) =
          Except.error MungeError.valueError := by
        unfold vstack
        rw [hmax]
        refine if_neg ?_
        simp only [List.headD_cons, List.length_replicate, hr0]
        omega
      rw [hvs] at hp
      simp at hp

lemma padLoop_isOk :
    ∀ (n : ℕ) (c : List (List ℚ)) (L : ℕ), c ≠ [] → (∀ r ∈ c, r.length = L) →
      c.length + n ≤ L + 1 → ∃ p, padLoop c n = Except.ok p := by
  intro n
  induction n with
  | zero => intro c L _ _ _; exact ⟨c, rfl⟩
  | succ m ih =>
    intro c L hne hlen hb
    obtain ⟨r0, rest, rfl⟩ : ∃ r0 rest, c = r0 :: rest := by
      cases c with
      | nil => exact absurd rfl hne
      | cons a l => exact ⟨a, l, rfl⟩
    have hr0 : r0.length = L := hlen r0 (List.mem_cons_self r0 rest)
    have hmax : npMaxShape (r0 :: rest) = L := by
      unfold npMaxShape
      rw [List.headD_cons, hr0]
      exact max_eq_right (by omega)
    have hvs : vstack (r0 :: rest) (List.replicate (npMaxShape (r0 :: rest)) 0) =
        Except.ok ((r0 :: rest) ++ [List.replicate L (0 : ℚ)]) := by
      unfold vstack
      rw [hmax, if_pos (by simp [hr0])]
    obtain ⟨p, hp⟩ := ih ((r0 :: rest) ++ [List.replicate L (0 : ℚ)]) L (by simp)
      (pad_rows_len hlen)
      (by simp only [List.length_append, List.length_cons, List.length_nil] at hb ⊢; omega)
    refine ⟨p, ?_⟩
    simp only [padLoop, hvs]
    exact hp

lemma derive_point_labels_getD (anno : Window) (times : List ℚ) :
    ∀ t, t < times.length →
      (derive_point_labels anno times).getD t 2 =
        if anno.start ≤ times.getD t 0 ∧ times.getD t 0 ≤ anno.stop then 1 else 0 := by
  induction times with
  | nil => intro t ht; simp at ht
  | cons a l ih =>
    intro t ht
    cases t with
    | zero => simp [derive_point_labels]
    | succ n =>
      simp only [derive_point_labels, List.map_cons, List.getD_cons_succ]
      exact ih n (by simpa using ht)

/-- C3 counterexample: the claim says that with `total_positive = 0` and
`positive_percentage > 0` every window label is 0; on the all-negative point
labels `[0,0,0,0]` with width 2, step 1 and percentage 1 the code instead
labels every window 1, because the threshold `1 * 0 = 0` is met by every
window. -/
theorem C3_counterexample :
    ([0, 0, 0, 0] : List ℕ).count 1 = 0 ∧ (0 : ℚ) < 1 ∧
      derive_window_labels [0, 0, 0, 0] 4 2 1 1 = [1, 1, 1] := by decide!

/-- C3 (amended): for every group whose point-label vector contains no 1s
(`total_positive = 0`), every derived window label is 1, for every
`positive_percentage` — the threshold `positive_percentage * 0 = 0` is always
met. -/
theorem C3_zero_total_positive :
    ∀ (row_labels : List ℕ) (numTimes w s : ℕ) (pct : ℚ),
      row_labels.count 1 = 0 →
      ∀ x ∈ derive_window_labels row_labels numTimes w s pct, x = 1 := by
  intro rl nT w s pct h x hx
  unfold derive_window_labels at hx
  obtain ⟨k, hk⟩ := windows_loop_mem rl w s nT pct (rl.count 1) (nT + 1) 0 x hx
  rw [hk, h]
  unfold window_label_at
  rw [if_pos]
  exact Or.inl (by rw [Nat.cast_zero, mul_zero]; exact Nat.cast_nonneg _)

theorem C3_zero_total_positive_witness :
    (derive_window_labels [0, 0, 0, 0] 4 2 1 1).headD 0 = 1 :=
  C3_zero_total_positive [0, 0, 0, 0] 4 2 1 1 (by decide!)
    ((derive_window_labels [0, 0, 0, 0] 4 2 1 1).headD 0) (by decide!)

/-- C4: the `j`-th derived window label is 1 iff the positive count of the
window at offset `j * step_size` is at least
`positive_percentage * total_positive` or equals `subsection_width`; in
particular a fully positive window is always labeled 1; and on point labels
`[0,1,1,1,0,0,1,1]` with width 3, step 1, percentage 1.0 the result is
`[0,1,0,0,0,0]`. -/
theorem C4_window_label_rule :
    (∀ (row_labels : List ℕ) (numTimes w s : ℕ) (pct : ℚ) (j : ℕ),
        j < (derive_window_labels row_labels numTimes w s pct).length →
        ((derive_window_labels row_labels numTimes w s pct).getD j 2 = 1 ↔
          ((subsection_positive_count row_labels (j * s) w : ℚ) ≥
              pct * (row_labels.count 1 : ℚ) ∨
            subsection_positive_count row_labels (j * s) w = w)))
    ∧ (∀ (row_labels : List ℕ) (numTimes w s : ℕ) (pct : ℚ) (j : ℕ),
        j < (derive_window_labels row_labels numTimes w s pct).length →
        subsection_positive_count row_labels (j * s) w = w →
        (derive_window_labels row_labels numTimes w s pct).getD j 2 = 1)
    ∧ derive_window_labels [0, 1, 1, 1, 0, 0, 1, 1] 8 3 1 1 = [0, 1, 0, 0, 0, 0] := by
  have h1 : ∀ (row_labels : List ℕ) (numTimes w s : ℕ) (pct : ℚ) (j : ℕ),
      j < (derive_window_labels row_labels numTimes w s pct).length →
      ((derive_window_labels row_labels numTimes w s pct).getD j 2 = 1 ↔
        ((subsection_positive_count row_labels (j * s) w : ℚ) ≥
            pct * (row_labels.count 1 : ℚ) ∨
          subsection_positive_count row_labels (j * s) w = w)) := by
    intro rl nT w s pct j hj
    unfold derive_window_labels at hj ⊢
    rw [windows_loop_getD rl w s nT pct (rl.count 1) (nT + 1) 0 j hj]
    simpa [Nat.zero_add] using window_label_at_eq_one rl w pct (rl.count 1) (j * s)
  exact ⟨h1, fun rl nT w s pct j hj hc => (h1 rl nT w s pct j hj).mpr (Or.inr hc),
    by decide!⟩

theorem C4_window_label_rule_witness :
    (derive_window_labels [0, 1, 1, 1, 0, 0, 1, 1] 8 3 1 1).getD 1 2 = 1 :=
  C4_window_label_rule.2.1 [0, 1, 1, 1, 0, 0, 1, 1] 8 3 1 1 1 (by decide!) (by decide!)

/-- C5: the point-label vector has the time axis's length, every entry is 0
or 1, entry `t` is 1 iff `start ≤ times[t] ≤ end` (closed interval), and the
window `(10, 20)` over times `[5,10,15,20,25]` yields `[0,1,1,1,0]`. -/
theorem C5_point_labels :
    (∀ (anno : Window) (times : List ℚ),
        (derive_point_labels anno times).length = times.length ∧
        ∀ t, t < times.length →
          ((derive_point_labels anno times).getD t 2 = 1 ↔
            (anno.start ≤ times.getD t 0 ∧ times.getD t 0 ≤ anno.stop)) ∧
          ((derive_point_labels anno times).getD t 2 = 0 ∨
            (derive_point_labels anno times).getD t 2 = 1))
    ∧ derive_point_labels ⟨10, 20⟩ [5, 10, 15, 20, 25] = [0, 1, 1, 1, 0] := by
  constructor
  · intro anno times
    refine ⟨by simp [derive_point_labels], fun t ht => ?_⟩
    rw [derive_point_labels_getD anno times t ht]
    by_cases hc : anno.start ≤ times.getD t 0 ∧ times.getD t 0 ≤ anno.stop
    · rw [if_pos hc]
      exact ⟨⟨fun _ => hc, fun _ => rfl⟩, Or.inr rfl⟩
    · rw [if_neg hc]
      exact ⟨⟨fun h => absurd h (by omega), fun h => absurd h hc⟩, Or.inl rfl⟩
  · decide!

theorem C5_point_labels_witness :
    (derive_point_labels ⟨10, 20⟩ [5, 10, 15, 20, 25]).getD 1 2 = 1 :=
  (((C5_point_labels.1 ⟨10, 20⟩ [5, 10, 15, 20, 25]).2 1 (by decide!)).1).mpr
    (by constructor <;> decide!)

/-- C6: a closed group holding `k` real trace rows (`1 ≤ k ≤ 6`, all of the
time axis's length `L`) is padded to exactly 6 rows by appending `6 - k` zero
vectors of length `L` after the last real trace (and padding succeeds
whenever `5 ≤ L` or no padding is needed). -/
theorem C6_padding :
    ∀ (c : List (List ℚ)) (k L : ℕ), c.length = k → 1 ≤ k → k ≤ 6 →
      (∀ r ∈ c, r.length = L) →
      ((∀ p, padChromatogram c k = Except.ok p →
          p.length = 6 ∧ p = c ++ List.replicate (6 - k) (List.replicate L 0)) ∧
        (5 ≤ L ∨ k = 6 → ∃ p, padChromatogram c k = Except.ok p)) := by
  intro c k L hlen h1 h6 hrows
  have hne : c ≠ [] := by
    intro h
    rw [h] at hlen
    simp at hlen
    omega
  constructor
  · intro p hp
    unfold padChromatogram at hp
    by_cases hk : k < 6
    · rw [if_pos hk] at hp
      have heq := padLoop_ok_eq (6 - k) c L hne hrows p hp
      refine ⟨?_, heq⟩
      rw [heq]
      simp only [List.length_append, List.length_replicate, hlen]
      omega
    · rw [if_neg hk] at hp
      cases hp
      have hk6 : k = 6 := by omega
      constructor
      · rw [hlen, hk6]
      · rw [hk6]
        simp
  · intro hL
    unfold padChromatogram
    by_cases hk : k < 6
    · rw [if_pos hk]
      apply padLoop_isOk (6 - k) c L hne hrows
      rw [hlen]
      rcases hL with h5 | hk6 <;> omega
    · rw [if_neg hk]
      exact ⟨c, rfl⟩

theorem C6_padding_witness :
    padChromatogram [[(1 : ℚ), 1, 1, 1, 1]] 1 =
      Except.ok ([[(1 : ℚ), 1, 1, 1, 1]] ++ List.replicate 5 (List.replicate 5 0)) := by
  have h := C6_padding [[(1 : ℚ), 1, 1, 1, 1]] 1 5 rfl (by omega) (by omega)
    (by intro r hr; simp at hr; rw [hr]; rfl)
  obtain ⟨p, hp⟩ := h.2 (Or.inl (by omega))
  obtain ⟨-, h2⟩ := h.1 p hp
  rw [hp, h2]

/-- C1 (evaluating the code at the failing input): on a single closed group
of 6 traces over 4 time points, with width 2 and step 2, the subsection
pipeline emits only the offset-0 sample (the flush loop's strict `<` guard
skips offset 2 although `2 + 2 ≤ 4`), and the array persisted under
`A_c_1_0_to_1` is the slice at columns 2..3, not columns 0..1, because `i` is
incremented before `np.save`. -/
theorem C1_subsection_emission_bug :
    parse_and_label_skyline_exported_chromatogram_subsections_cnn c1lines annAc 2 2 1 =
      Except.ok c1out ∧
    c1out.saved = [("A_c_1_0_to_1", c1rows.map (fun r => (r.drop 2).take 2))] ∧
    c1rows.map (fun r => (r.drop 2).take 2) ≠ c1rows.map (fun r => (r.drop 0).take 2) ∧
    c1out.chromatograms.length = 1 := by decide!

/-- C2 counterexample: on `c2lines` the subsection run emits two manifest
rows that both carry sample_id 0 — ids are neither distinct nor dense per
materialized subsection sample. -/
theorem C2_counterexample :
    parse_and_label_skyline_exported_chromatogram_subsections_cnn c2lines annAc 2 2 1 =
      Except.ok c2out ∧
    c2out.chromatograms.map Prod.fst = [0, 0] := by decide!

/-- C7: a new group is opened iff the row's (sequence, charge) key differs
from the active key or the active group already holds 6 rows; and the input
`[(A,1)×7, (B,1)×2]` yields exactly 3 groups of 6, 1 and 2 real rows with
manifest ids 0, 1, 2. -/
theorem C7_grouping :
    (∀ (last_seq last_charge : String) (trace_counter : ℕ) (seq charge : String),
        opens_new_group last_seq last_charge trace_counter seq charge = true ↔
          ((seq, charge) ≠ (last_seq, last_charge) ∨ trace_counter = 6))
    ∧ parse_and_label_skyline_exported_chromatograms_lstm c7lines c7ann =
        Except.ok c7out := by
  constructor
  · intro ls lc tc s c
    simp only [opens_new_group, Bool.or_eq_true, bne_iff_ne, beq_iff_eq, ne_eq,
      Prod.mk.injEq, not_and]
    tauto
  · decide!

/-- C8 counterexample: the second row of `c8lines` is a non-skipped trace
row whose (replicate, sequence) pair `("Q", "A")` is absent from the
annotation index, yet the lstm run completes (the row is appended to the
active group and its pair is never looked up). -/
theorem C8_counterexample :
    parse_line_fields (traceLine "x_y_Q%z.w" "A" "1" "1,2,3,4,5" "2,2,2,2,2") =
      Except.ok (some ⟨"Q", "A", "1", [2, 2, 2, 2, 2]⟩) ∧
    anns_lookup annAc "Q" "A" = none ∧
    parse_and_label_skyline_exported_chromatograms_lstm c8lines annAc =
      Except.ok c8out := by decide!

/-- C9 counterexample: `c9line` has a 5-point time list and a 6-point
intensity list; it parses without error and the cnn run on it completes and
persists the group — a mismatched row is silently accepted. -/
theorem C9_counterexample :
    parse_line_fields c9line = Except.ok (some ⟨"c", "A", "1", [1, 1, 1, 1, 1, 1]⟩) ∧
    parse_times c9line = Except.ok [1, 2, 3, 4, 5] ∧
    ([(1 : ℚ), 2, 3, 4, 5].length ≠ [(1 : ℚ), 1, 1, 1, 1, 1].length) ∧
    parse_and_label_skyline_exported_chromatograms_cnn [c9line] annAc 2 1 1 =
      Except.ok c9out := by decide!

lemma fold_skip {σ : Type} (step : σ → List String → Except MungeError σ)
    (hstep : ∀ st l, l[1]? = some "#N/A" → step st l = Except.ok st) :
    ∀ (lines : List (List String)) (st : σ),
      (∀ l ∈ lines, l[1]? = some "#N/A") →
      List.foldlM step st lines = Except.ok st := by
  intro lines
  induction lines with
  | nil => intro st _; rfl
  | cons a l ih =>
    intro st h
    rw [List.foldlM_cons, hstep st a (h a (List.mem_cons_self a l))]
    exact ih st (fun x hx => h x (List.mem_cons_of_mem a hx))

lemma lstm_step_skip (annotations : Annotations) (st : LstmState) (line : List String)
    (h : (line)[1]? = some "#N/A") : lstm_step annotations st line = Except.ok st := by
  simp [lstm_step, parse_line_fields, h]

lemma cnn_step_skip (annotations : Annotations) (subsection_width step_size : ℕ)
    (positive_percentage : ℚ) (st : CnnState) (line : List String)
    (h : (line)[1]? = some "#N/A") :
    cnn_step annotations subsection_width step_size positive_percentage st line =
      Except.ok st := by
  simp [cnn_step, parse_line_fields, h]

lemma sub_step_skip (annotations : Annotations) (subsection_width step_size : ℕ)
    (positive_percentage : ℚ) (st : SubState) (line : List String)
    (h : (line)[1]? = some "#N/A") :
    sub_step annotations subsection_width step_size positive_percentage st line =
      Except.ok st := by
  simp [sub_step, parse_line_fields, h]

/-- C10: on an input with no non-skipped rows (empty, or every row's
sequence field equal to `#N/A`), all three pipelines abort with the
`AttributeError` raised by the unconditional end-of-input flush on the absent
active group, instead of returning empty outputs. -/
theorem C10_all_rows_skipped :
    ∀ (lines : List (List String)) (annotations : Annotations)
      (subsection_width step_size : ℕ) (positive_percentage : ℚ),
      (∀ l ∈ lines, l[1]? = some "#N/A") →
      parse_and_label_skyline_exported_chromatograms_lstm lines annotations =
        Except.error MungeError.attributeError ∧
      parse_and_label_skyline_exported_chromatograms_cnn lines annotations
          subsection_width step_size positive_percentage =
        Except.error MungeError.attributeError ∧
      parse_and_label_skyline_exported_chromatogram_subsections_cnn lines annotations
          subsection_width step_size positive_percentage =
        Except.error MungeError.attributeError := by
  intro lines ann w s pct h
  refine ⟨?_, ?_, ?_⟩
  · unfold parse_and_label_skyline_exported_chromatograms_lstm
    rw [fold_skip (lstm_step ann) (lstm_step_skip ann) lines initLstmState h]
    rfl
  · unfold parse_and_label_skyline_exported_chromatograms_cnn
    rw [fold_skip (cnn_step ann w s pct) (cnn_step_skip ann w s pct) lines initCnnState h]
    rfl
  · unfold parse_and_label_skyline_exported_chromatogram_subsections_cnn
    rw [fold_skip (sub_step ann w s pct) (sub_step_skip ann w s pct) lines initSubState h]
    rfl

theorem C10_all_rows_skipped_witness :
    parse_and_label_skyline_exported_chromatograms_lstm [["x", "#N/A"]] [] =
      Except.error MungeError.attributeError ∧
    parse_and_label_skyline_exported_chromatograms_cnn [["x", "#N/A"]] [] 1 1 1 =
      Except.error MungeError.attributeError ∧
    parse_and_label_skyline_exported_chromatogram_subsections_cnn [["x", "#N/A"]] [] 1 1 1 =
      Except.error MungeError.attributeError :=
  C10_all_rows_skipped [["x", "#N/A"]] [] 1 1 1 (by decide!)

lemma lstm_open_lookup_none (annotations : Annotations) (st : LstmState)
    (line : List String) (f : ParsedFields)
    (hlook : anns_lookup annotations f.repl f.seq = none) :
    ∀ out, lstm_open annotations st line f ≠ Except.ok out := by
  intro out
  unfold lstm_open
  cases hpt : parse_times line with
  | error e => simp
  | ok times => simp [hlook, expect]

/-- C8 (amended): the lstm pipeline aborts on a missing
(replicate, sequence) annotation exactly when the offending row opens a new
group — an opening row with an absent pair can never produce a next state,
while a row that merely extends the active group is processed without
consulting the annotation index at all (its result is the same under any
index). -/
theorem C8_lookup_only_on_open :
    (∀ (annotations : Annotations) (st : LstmState) (line : List String)
        (f : ParsedFields),
        parse_line_fields line = Except.ok (some f) →
        opens_new_group st.last_seq st.last_charge st.trace_counter f.seq f.charge = true →
        anns_lookup annotations f.repl f.seq = none →
        ∀ out, lstm_step annotations st line ≠ Except.ok out)
    ∧ (∀ (annotations annotations2 : Annotations) (st : LstmState) (line : List String)
        (f : ParsedFields),
        parse_line_fields line = Except.ok (some f) →
        opens_new_group st.last_seq st.last_charge st.trace_counter f.seq f.charge = false →
        lstm_step annotations st line = lstm_step annotations2 st line) := by
  constructor
  · intro ann st line f hp hop hlook out
    simp only [lstm_step, hp]
    rw [hop]
    simp only [if_true]
    cases hc : st.chromatogram with
    | none => exact lstm_open_lookup_none ann st line f hlook out
    | some c =>
      cases hcl : lstm_close st c with
      | error e => simp [hcl]
      | ok st1 =>
        simp only [hcl]
        exact lstm_open_lookup_none ann st1 line f hlook out
  · intro ann ann2 st line f hp hop
    simp only [lstm_step, hp]
    rw [hop]
    simp

theorem C8_lookup_only_on_open_witness :
    (lstm_step [] initLstmState (traceLine "x_y_c%z.w" "A" "1" "1,2" "1,2") ≠
      Except.ok initLstmState) ∧
    lstm_step [] c8wstate (traceLine "x_y_c%z.w" "A" "1" "1,2" "1,2") =
      lstm_step annAc c8wstate (traceLine "x_y_c%z.w" "A" "1" "1,2" "1,2") :=
  ⟨C8_lookup_only_on_open.1 [] initLstmState (traceLine "x_y_c%z.w" "A" "1" "1,2" "1,2")
      ⟨"c", "A", "1", [1, 2]⟩ (by decide!) (by decide!) (by decide!) initLstmState,
   C8_lookup_only_on_open.2 [] annAc c8wstate (traceLine "x_y_c%z.w" "A" "1" "1,2" "1,2")
      ⟨"c", "A", "1", [1, 2]⟩ (by decide!) (by decide!)⟩

/-- C9 (amended): row parsing fails when the filename has fewer tokens than
the replicate-id pattern expects (characterized exactly), when the intensity
field is absent, or when it is non-numeric; row parsing reads only fields 0,
1, 2 and 9, never the time field (field 8), which is parsed only when a row
opens a new group — so an extending row whose time field is the non-numeric
`garbage,!!` is accepted and the run completes — and the time and intensity
list lengths are never compared, so the mismatched row `c9line` parses
successfully (the cnn run accepting it is `C9_counterexample`). -/
theorem C9_parse_failure_conditions :
    (∀ fname, parse_skyline_exported_chromatogram_filenames fname = none ↔
        ((fname.splitOn "%").length < 2 ∨
          (((fname.splitOn "%").headD "").splitOn "_").length < 3))
    ∧ (∀ line, (line)[1]? ≠ some "#N/A" → (line)[9]? = none →
        parse_line_fields line = Except.error MungeError.indexError)
    ∧ (∀ (line : List String) (intsF : String), (line)[1]? ≠ some "#N/A" →
        (line)[9]? = some intsF → parseFloatList intsF = none →
        (parse_line_fields line = Except.error MungeError.valueError ∨
          parse_line_fields line = Except.error MungeError.indexError))
    ∧ (∀ (l1 l2 : List String), (l1)[0]? = (l2)[0]? → (l1)[1]? = (l2)[1]? →
        (l1)[2]? = (l2)[2]? → (l1)[9]? = (l2)[9]? →
        parse_line_fields l1 = parse_line_fields l2)
    ∧ (parseFloatList "garbage,!!" = none ∧
        parse_and_label_skyline_exported_chromatograms_lstm c9blines annAc =
          Except.ok c9bout ∧
        parse_line_fields c9line = Except.ok (some ⟨"c", "A", "1", [1, 1, 1, 1, 1, 1]⟩) ∧
        parse_times c9line = Except.ok [1, 2, 3, 4, 5]) := by
  refine ⟨?_, ?_, ?_, ?_, by decide!⟩
  · intro fname
    constructor
    · intro hnone
      by_contra hcon
      push_neg at hcon
      obtain ⟨hl1, hl2⟩ := hcon
      obtain ⟨p1, hp1⟩ : ∃ p1, (fname.splitOn "%")[1]? = some p1 :=
        ⟨_, List.getElem?_eq_getElem (by omega)⟩
      obtain ⟨t2, ht2⟩ : ∃ t2, (((fname.splitOn "%").headD "").splitOn "_")[2]? = some t2 :=
        ⟨_, List.getElem?_eq_getElem (by omega)⟩
      simp only [parse_skyline_exported_chromatogram_filenames, hp1, ht2] at hnone
      exact Option.noConfusion hnone
    · intro hcon
      rcases hcon with hl | hl
      · have h1 : (fname.splitOn "%")[1]? = none := List.getElem?_eq_none (by omega)
        simp only [parse_skyline_exported_chromatogram_filenames, h1]
      · rcases h1 : (fname.splitOn "%")[1]? with - | p1
        · simp only [parse_skyline_exported_chromatogram_filenames, h1]
        · have h2 : (((fname.splitOn "%").headD "").splitOn "_")[2]? = none :=
            List.getElem?_eq_none (by omega)
          simp only [parse_skyline_exported_chromatogram_filenames, h1, h2]
  · intro line h1 h9
    rcases hg1 : (line)[1]? with - | s
    · simp only [parse_line_fields, hg1]
    · have hs : ¬(s = "#N/A") := fun hsx => h1 (by rw [hg1, hsx])
      rcases hg0 : (line)[0]? with - | fname
      · simp only [parse_line_fields, hg1, hg0, if_neg hs]
      · rcases hpf : parse_skyline_exported_chromatogram_filenames fname with - | repl
        · simp only [parse_line_fields, hg1, hg0, hpf, if_neg hs]
        · simp only [parse_line_fields, hg1, hg0, hpf, h9, if_neg hs]
  · intro line intsF h1 h9 hints
    rcases hg1 : (line)[1]? with - | s
    · exact Or.inr (by simp only [parse_line_fields, hg1])
    · have hs : ¬(s = "#N/A") := fun hsx => h1 (by rw [hg1, hsx])
      rcases hg0 : (line)[0]? with - | fname
      · exact Or.inr (by simp only [parse_line_fields, hg1, hg0, if_neg hs])
      · rcases hpf : parse_skyline_exported_chromatogram_filenames fname with - | repl
        · exact Or.inr (by simp only [parse_line_fields, hg1, hg0, hpf, if_neg hs])
        · exact Or.inl
            (by simp only [parse_line_fields, hg1, hg0, hpf, h9, hints, if_neg hs])
  · intro l1 l2 h0 h1 h2 h9
    unfold parse_line_fields
    rw [h0, h1, h2, h9]

lemma error_bind {α β : Type} (e : MungeError) (f : α → Except MungeError β) :
    ((Except.error e : Except MungeError α) >>= f) = Except.error e := rfl

lemma ok_bind {α β : Type} (a : α) (f : α → Except MungeError β) :
    ((Except.ok a : Except MungeError α) >>= f) = f a := rfl

lemma manifest_ids_dense_append {m : List (ℕ × String)} {n : ℕ}
    (h : manifest_ids_dense m n) (fname : String) :
    manifest_ids_dense (m ++ [(n, fname)]) (n + 1) := by
  obtain ⟨h1, h2⟩ := h
  constructor
  · simp [h1]
  · rw [List.map_append, h2, List.length_append]
    simp only [List.map_cons, List.map_nil, List.length_cons, List.length_nil]
    rw [h1, List.range_succ]

lemma lstm_close_dense {st st2 : LstmState} {c : List (List ℚ)}
    (hcl : lstm_close st c = Except.ok st2)
    (h : manifest_ids_dense st.chromatograms st.chromatogram_id) :
    manifest_ids_dense st2.chromatograms st2.chromatogram_id := by
  unfold lstm_close at hcl
  rcases hpad : padChromatogram c st.trace_counter with e | padded <;>
    simp only [hpad] at hcl
  · cases hcl
  · rcases hlast : st.labels.getLast? with - | lastLabel <;> simp only [hlast] at hcl
    · cases hcl
    · split at hcl
      · cases hcl
        exact manifest_ids_dense_append h _
      · cases hcl

lemma lstm_open_dense {annotations : Annotations} {st st2 : LstmState}
    {line : List String} {f : ParsedFields}
    (ho : lstm_open annotations st line f = Except.ok st2)
    (h : manifest_ids_dense st.chromatograms st.chromatogram_id) :
    manifest_ids_dense st2.chromatograms st2.chromatogram_id := by
  unfold lstm_open at ho
  rcases hpt : parse_times line with e | times <;> simp only [hpt] at ho
  · cases ho
  · rcases hlk : anns_lookup annotations f.repl f.seq with - | anno <;>
      simp only [hlk, expect] at ho
    · cases ho
    · cases ho
      exact h

lemma lstm_step_dense {annotations : Annotations} {st st2 : LstmState}
    {line : List String} (hs : lstm_step annotations st line = Except.ok st2)
    (h : manifest_ids_dense st.chromatograms st.chromatogram_id) :
    manifest_ids_dense st2.chromatograms st2.chromatogram_id := by
  rcases hp : parse_line_fields line with e | o
  · simp only [lstm_step, hp] at hs
    cases hs
  · cases o with
    | none =>
      simp only [lstm_step, hp] at hs
      cases hs
      exact h
    | some f =>
      simp only [lstm_step, hp] at hs
      split at hs
      · rcases hc : st.chromatogram with - | c
        · simp only [hc] at hs
          exact lstm_open_dense hs h
        · simp only [hc] at hs
          rcases hcl : lstm_close st c with e | st1 <;> simp only [hcl] at hs
          · cases hs
          · exact lstm_open_dense hs (lstm_close_dense hcl h)
      · rcases hc : st.chromatogram with - | c
        · simp only [hc] at hs
          cases hs
        · simp only [hc] at hs
          rcases hv : vstack c f.ints with e | c2 <;> simp only [hv] at hs
          · cases hs
          · cases hs
            exact h

lemma lstm_fold_dense {annotations : Annotations} :
    ∀ (lines : List (List String)) (st st2 : LstmState),
      List.foldlM (lstm_step annotations) st lines = Except.ok st2 →
      manifest_ids_dense st.chromatograms st.chromatogram_id →
      manifest_ids_dense st2.chromatograms st2.chromatogram_id := by
  intro lines
  induction lines with
  | nil =>
    intro st st2 hf h
    rw [List.foldlM_nil] at hf
    cases hf
    exact h
  | cons a l ih =>
    intro st st2 hf h
    rw [List.foldlM_cons] at hf
    rcases hs : lstm_step annotations st a with e | st1
    · rw [hs, error_bind] at hf
      cases hf
    · rw [hs, ok_bind] at hf
      exact ih st1 st2 hf (lstm_step_dense hs h)

lemma lstm_run_dense {lines : List (List String)} {annotations : Annotations}
    {out : LstmOutput}
    (hr : parse_and_label_skyline_exported_chromatograms_lstm lines annotations =
      Except.ok out) :
    out.chromatograms.map Prod.fst = List.range out.chromatograms.length := by
  unfold parse_and_label_skyline_exported_chromatograms_lstm at hr
  rcases hf : List.foldlM (lstm_step annotations) initLstmState lines with e | st <;>
    simp only [hf] at hr
  · cases hr
  · have hd := lstm_fold_dense lines initLstmState st hf ⟨rfl, rfl⟩
    unfold lstm_flush at hr
    rcases hc : st.chromatogram with - | c <;> simp only [hc] at hr
    · cases hr
    · rcases hpad : padChromatogram c st.trace_counter with e | padded <;>
        simp only [hpad] at hr
      · cases hr
      · cases hr
        exact (manifest_ids_dense_append hd _).2

lemma cnn_close_dense {st st2 : CnnState} {c : List (List ℚ)}
    (hcl : cnn_close st c = Except.ok st2)
    (h : manifest_ids_dense st.chromatograms st.chromatogram_id) :
    manifest_ids_dense st2.chromatograms st2.chromatogram_id := by
  unfold cnn_close at hcl
  rcases hpad : padChromatogram c st.trace_counter with e | padded <;>
    simp only [hpad] at hcl
  · cases hcl
  · cases hcl
    exact manifest_ids_dense_append h _

lemma cnn_open_dense {annotations : Annotations} {subsection_width step_size : ℕ}
    {positive_percentage : ℚ} {st st2 : CnnState} {line : List String} {f : ParsedFields}
    (ho : cnn_open annotations subsection_width step_size positive_percentage st line f =
      Except.ok st2)
    (h : manifest_ids_dense st.chromatograms st.chromatogram_id) :
    manifest_ids_dense st2.chromatograms st2.chromatogram_id := by
  unfold cnn_open at ho
  rcases hpt : parse_times line with e | times <;> simp only [hpt] at ho
  · cases ho
  · rcases hlk : anns_lookup annotations f.repl f.seq with - | anno <;>
      simp only [hlk, expect] at ho
    · cases ho
    · cases ho
      exact h

lemma cnn_step_dense {annotations : Annotations} {subsection_width step_size : ℕ}
    {positive_percentage : ℚ} {st st2 : CnnState} {line : List String}
    (hs : cnn_step annotations subsection_width step_size positive_percentage st line =
      Except.ok st2)
    (h : manifest_ids_dense st.chromatograms st.chromatogram_id) :
    manifest_ids_dense st2.chromatograms st2.chromatogram_id := by
  rcases hp : parse_line_fields line with e | o
  · simp only [cnn_step, hp] at hs
    cases hs
  · cases o with
    | none =>
      simp only [cnn_step, hp] at hs
      cases hs
      exact h
    | some f =>
      simp only [cnn_step, hp] at hs
      split at hs
      · rcases hc : st.chromatogram with - | c
        · simp only [hc] at hs
          exact cnn_open_dense hs h
        · simp only [hc] at hs
          rcases hcl : cnn_close st c with e | st1 <;> simp only [hcl] at hs
          · cases hs
          · exact cnn_open_dense hs (cnn_close_dense hcl h)
      · rcases hc : st.chromatogram with - | c
        · simp only [hc] at hs
          cases hs
        · simp only [hc] at hs
          rcases hv : vstack c f.ints with e | c2 <;> simp only [hv] at hs
          · cases hs
          · cases hs
            exact h

lemma cnn_fold_dense {annotations : Annotations} {subsection_width step_size : ℕ}
    {positive_percentage : ℚ} :
    ∀ (lines : List (List String)) (st st2 : CnnState),
      List.foldlM (cnn_step annotations subsection_width step_size positive_percentage)
        st lines = Except.ok st2 →
      manifest_ids_dense st.chromatograms st.chromatogram_id →
      manifest_ids_dense st2.chromatograms st2.chromatogram_id := by
  intro lines
  induction lines with
  | nil =>
    intro st st2 hf h
    rw [List.foldlM_nil] at hf
    cases hf
    exact h
  | cons a l ih =>
    intro st st2 hf h
    rw [List.foldlM_cons] at hf
    rcases hs : cnn_step annotations subsection_width step_size positive_percentage st a
      with e | st1
    · rw [hs, error_bind] at hf
      cases hf
    · rw [hs, ok_bind] at hf
      exact ih st1 st2 hf (cnn_step_dense hs h)

lemma cnn_run_dense {lines : List (List String)} {annotations : Annotations}
    {subsection_width step_size : ℕ} {positive_percentage : ℚ} {out : CnnOutput}
    (hr : parse_and_label_skyline_exported_chromatograms_cnn lines annotations
      subsection_width step_size positive_percentage = Except.ok out) :
    out.chromatograms.map Prod.fst = List.range out.chromatograms.length := by
  unfold parse_and_label_skyline_exported_chromatograms_cnn at hr
  rcases hf : List.foldlM
      (cnn_step annotations subsection_width step_size positive_percentage)
      initCnnState lines with e | st <;> simp only [hf] at hr
  · cases hr
  · have hd := cnn_fold_dense lines initCnnState st hf ⟨rfl, rfl⟩
    unfold cnn_flush at hr
    rcases hc : st.chromatogram with - | c <;> simp only [hc] at hr
    · cases hr
    · rcases hpad : padChromatogram c st.trace_counter with e | padded <;>
        simp only [hpad] at hr
      · cases hr
      · cases hr
        exact (manifest_ids_dense_append hd _).2

lemma grouped_ids_append {m : SubManifest} {n : ℕ} (h : grouped_ids m n)
    {new : SubManifest} (hnew : ∀ r ∈ new, r.1 = n) : grouped_ids (m ++ new) (n + 1) := by
  obtain ⟨blocks, hm, hlen, hok⟩ := h
  refine ⟨blocks ++ [new], ?_, by simp [hlen], ?_⟩
  · rw [hm, List.flatten_append]
    simp
  · intro g r hr
    by_cases hg : g < blocks.length
    · rw [List.getD_append blocks [new] [] g hg] at hr
      exact hok g r hr
    · rw [List.getD_append_right blocks [new] [] g (by omega)] at hr
      by_cases hg2 : g = blocks.length
      · rw [hg2, Nat.sub_self] at hr
        simp only [List.getD_cons_zero] at hr
        rw [hnew r hr, ← hlen, hg2]
      · have : 1 ≤ g - blocks.length := by omega
        rcases hd : g - blocks.length with - | k
        · omega
        · rw [hd] at hr
          simp at hr

lemma sub_emit_loop_manifest (root : String) (padded : List (List ℚ))
    (labels : List ℕ) (w s L cid : ℕ) (strict : Bool) :
    ∀ (fuel i j : ℕ) (manifest m2 : SubManifest)
      (saved s2 : List (String × List (List ℚ))),
      sub_emit_loop root padded labels w s L cid strict fuel i j manifest saved =
        Except.ok (m2, s2) →
      ∃ new, m2 = manifest ++ new ∧ ∀ r ∈ new, r.1 = cid := by
  intro fuel
  induction fuel with
  | zero =>
    intro i j manifest m2 saved s2 hl
    simp only [sub_emit_loop] at hl
    cases hl
    exact ⟨[], by simp, by simp⟩
  | succ fl ih =>
    intro i j manifest m2 saved s2 hl
    simp only [sub_emit_loop] at hl
    split at hl <;> split at hl
    · rcases hj : labels[j]? with - | l <;> simp only [hj] at hl
      · cases hl
      · obtain ⟨new, h1, h2⟩ := ih _ _ _ _ _ _ hl
        refine ⟨(cid, root ++ "_" ++ toString i ++ "_to_" ++ toString (i + w - 1), l)
          :: new, ?_, ?_⟩
        · rw [h1, List.append_assoc]
          rfl
        · intro r hr
          rcases List.mem_cons.mp hr with hre | hr2
          · rw [hre]
          · exact h2 r hr2
    · cases hl
      exact ⟨[], by simp, by simp⟩
    · rcases hj : labels[j]? with - | l <;> simp only [hj] at hl
      · cases hl
      · obtain ⟨new, h1, h2⟩ := ih _ _ _ _ _ _ hl
        refine ⟨(cid, root ++ "_" ++ toString i ++ "_to_" ++ toString (i + w - 1), l)
          :: new, ?_, ?_⟩
        · rw [h1, List.append_assoc]
          rfl
        · intro r hr
          rcases List.mem_cons.mp hr with hre | hr2
          · rw [hre]
          · exact h2 r hr2
    · cases hl
      exact ⟨[], by simp, by simp⟩

lemma sub_close_grouped {subsection_width step_size : ℕ} {st st2 : SubState}
    {c : List (List ℚ)}
    (hcl : sub_close subsection_width step_size st c = Except.ok st2)
    (h : grouped_ids st.chromatograms st.chromatogram_id) :
    grouped_ids st2.chromatograms st2.chromatogram_id := by
  unfold sub_close at hcl
  rcases hpad : padChromatogram c st.trace_counter with e | padded <;>
    simp only [hpad] at hcl
  · cases hcl
  · rcases hloop : sub_emit_loop
        (String.intercalate "_" [st.last_seq, st.last_repl, st.last_charge]) padded
        st.chromatogram_labels subsection_width step_size ((padded.headD []).length)
        st.chromatogram_id false ((padded.headD []).length + 1) 0 0
        st.chromatograms st.saved with e | pr <;> simp only [hloop] at hcl
    · cases hcl
    · obtain ⟨m2, s2⟩ := pr
      obtain ⟨new, h1, h2⟩ := sub_emit_loop_manifest _ _ _ _ _ _ _ _ _ _ _ _ _ _ _ hloop
      cases hcl
      rw [h1]
      exact grouped_ids_append h h2

lemma sub_open_grouped {annotations : Annotations} {subsection_width step_size : ℕ}
    {positive_percentage : ℚ} {st st2 : SubState} {line : List String} {f : ParsedFields}
    (ho : sub_open annotations subsection_width step_size positive_percentage st line f =
      Except.ok st2)
    (h : grouped_ids st.chromatograms st.chromatogram_id) :
    grouped_ids st2.chromatograms st2.chromatogram_id := by
  unfold sub_open at ho
  rcases hpt : parse_times line with e | times <;> simp only [hpt] at ho
  · cases ho
  · rcases hlk : anns_lookup annotations f.repl f.seq with - | anno <;>
      simp only [hlk, expect] at ho
    · cases ho
    · cases ho
      exact h

lemma sub_step_grouped {annotations : Annotations} {subsection_width step_size : ℕ}
    {positive_percentage : ℚ} {st st2 : SubState} {line : List String}
    (hs : sub_step annotations subsection_width step_size positive_percentage st line =
      Except.ok st2)
    (h : grouped_ids st.chromatograms st.chromatogram_id) :
    grouped_ids st2.chromatograms st2.chromatogram_id := by
  rcases hp : parse_line_fields line with e | o
  · simp only [sub_step, hp] at hs
    cases hs
  · cases o with
    | none =>
      simp only [sub_step, hp] at hs
      cases hs
      exact h
    | some f =>
      simp only [sub_step, hp] at hs
      split at hs
      · rcases hc : st.chromatogram with - | c
        · simp only [hc] at hs
          exact sub_open_grouped hs h
        · simp only [hc] at hs
          rcases hcl : sub_close subsection_width step_size st c with e | st1 <;>
            simp only [hcl] at hs
          · cases hs
          · exact sub_open_grouped hs (sub_close_grouped hcl h)
      · rcases hc : st.chromatogram with - | c
        · simp only [hc] at hs
          cases hs
        · simp only [hc] at hs
          rcases hv : vstack c f.ints with e | c2 <;> simp only [hv] at hs
          · cases hs
          · cases hs
            exact h

lemma sub_fold_grouped {annotations : Annotations} {subsection_width step_size : ℕ}
    {positive_percentage : ℚ} :
    ∀ (lines : List (List String)) (st st2 : SubState),
      List.foldlM (sub_step annotations subsection_width step_size positive_percentage)
        st lines = Except.ok st2 →
      grouped_ids st.chromatograms st.chromatogram_id →
      grouped_ids st2.chromatograms st2.chromatogram_id := by
  intro lines
  induction lines with
  | nil =>
    intro st st2 hf h
    rw [List.foldlM_nil] at hf
    cases hf
    exact h
  | cons a l ih =>
    intro st st2 hf h
    rw [List.foldlM_cons] at hf
    rcases hs : sub_step annotations subsection_width step_size positive_percentage st a
      with e | st1
    · rw [hs, error_bind] at hf
      cases hf
    · rw [hs, ok_bind] at hf
      exact ih st1 st2 hf (sub_step_grouped hs h)

lemma grouped_ids_init : grouped_ids ([] : SubManifest) 0 := by
  refine ⟨[], rfl, rfl, ?_⟩
  intro g r hr
  simp at hr

lemma sub_close_emits {subsection_width step_size : ℕ} {st st2 : SubState}
    {c : List (List ℚ)}
    (hcl : sub_close subsection_width step_size st c = Except.ok st2) :
    st2.chromatogram_id = st.chromatogram_id + 1 ∧
    ∃ new, st2.chromatograms = st.chromatograms ++ new ∧
      ∀ r ∈ new, r.1 = st.chromatogram_id := by
  unfold sub_close at hcl
  rcases hpad : padChromatogram c st.trace_counter with e | padded <;>
    simp only [hpad] at hcl
  · cases hcl
  · rcases hloop : sub_emit_loop
        (String.intercalate "_" [st.last_seq, st.last_repl, st.last_charge]) padded
        st.chromatogram_labels subsection_width step_size ((padded.headD []).length)
        st.chromatogram_id false ((padded.headD []).length + 1) 0 0
        st.chromatograms st.saved with e | pr <;> simp only [hloop] at hcl
    · cases hcl
    · obtain ⟨m2, s2⟩ := pr
      obtain ⟨new, h1, h2⟩ := sub_emit_loop_manifest _ _ _ _ _ _ _ _ _ _ _ _ _ _ _ hloop
      cases hcl
      exact ⟨rfl, new, h1, h2⟩

lemma sub_open_manifest {annotations : Annotations} {subsection_width step_size : ℕ}
    {positive_percentage : ℚ} {st st2 : SubState} {line : List String} {f : ParsedFields}
    (ho : sub_open annotations subsection_width step_size positive_percentage st line f =
      Except.ok st2) :
    st2.chromatograms = st.chromatograms ∧ st2.chromatogram_id = st.chromatogram_id := by
  unfold sub_open at ho
  rcases hpt : parse_times line with e | times <;> simp only [hpt] at ho
  · cases ho
  · rcases hlk : anns_lookup annotations f.repl f.seq with - | anno <;>
      simp only [hlk, expect] at ho
    · cases ho
    · cases ho
      exact ⟨rfl, rfl⟩

lemma sub_flush_emits {subsection_width step_size : ℕ} {st : SubState} {out : SubOutput}
    (hr : sub_flush subsection_width step_size st = Except.ok out) :
    ∃ new, out.chromatograms = st.chromatograms ++ new ∧
      ∀ r ∈ new, r.1 = st.chromatogram_id := by
  unfold sub_flush at hr
  rcases hc : st.chromatogram with - | c <;> simp only [hc] at hr
  · cases hr
  · rcases hpad : padChromatogram c st.trace_counter with e | padded <;>
      simp only [hpad] at hr
    · cases hr
    · rcases hloop : sub_emit_loop
          (String.intercalate "_" [st.last_seq, st.last_repl, st.last_charge]) padded
          st.chromatogram_labels subsection_width step_size
          ((padded.headD []).length) st.chromatogram_id true
          ((padded.headD []).length + 1) 0 0 st.chromatograms st.saved
          with e | pr <;> simp only [hloop] at hr
      · cases hr
      · obtain ⟨m2, s2⟩ := pr
        obtain ⟨new, h1, h2⟩ := sub_emit_loop_manifest _ _ _ _ _ _ _ _ _ _ _ _ _ _ _ hloop
        cases hr
        exact ⟨new, h1, h2⟩

lemma sub_step_manifest {annotations : Annotations} {subsection_width step_size : ℕ}
    {positive_percentage : ℚ} {st st2 : SubState} {line : List String}
    (hs : sub_step annotations subsection_width step_size positive_percentage st line =
      Except.ok st2) :
    (st2.chromatograms = st.chromatograms ∧ st2.chromatogram_id = st.chromatogram_id) ∨
    (∃ (c : List (List ℚ)) (st1 : SubState), st.chromatogram = some c ∧
      sub_close subsection_width step_size st c = Except.ok st1 ∧
      st2.chromatograms = st1.chromatograms ∧
      st2.chromatogram_id = st1.chromatogram_id) := by
  rcases hp : parse_line_fields line with e | o
  · simp only [sub_step, hp] at hs
    cases hs
  · cases o with
    | none =>
      simp only [sub_step, hp] at hs
      cases hs
      exact Or.inl ⟨rfl, rfl⟩
    | some f =>
      simp only [sub_step, hp] at hs
      split at hs
      · rcases hc : st.chromatogram with - | c
        · simp only [hc] at hs
          exact Or.inl (sub_open_manifest hs)
        · simp only [hc] at hs
          rcases hcl : sub_close subsection_width step_size st c with e | st1 <;>
            simp only [hcl] at hs
          · cases hs
          · exact Or.inr ⟨c, st1, rfl, hcl, sub_open_manifest hs⟩
      · rcases hc : st.chromatogram with - | c
        · simp only [hc] at hs
          cases hs
        · simp only [hc] at hs
          rcases hv : vstack c f.ints with e | c2 <;> simp only [hv] at hs
          · cases hs
          · cases hs
            exact Or.inl ⟨rfl, rfl⟩

/-- C2 (amended): in the two whole-chromatogram pipelines every manifest row
carries a distinct sample_id and the ids form the dense zero-based sequence
0, 1, 2, ... in emission order — one id per emitted group.  In subsection
mode the id is per source closed group: closing a group appends only
manifest rows carrying the current `chromatogram_id` and then increments
that counter by exactly one (also when the group emitted no subsection, so
such a group still consumes its id); no other outcome of a pipeline step
touches the manifest or the counter — a step either leaves both unchanged
or routes every change through one `sub_close` call — so the counter equals
the number of groups closed so far and every manifest row carries its
source group's zero-based index; the end-of-input flush likewise appends
only rows carrying the final group's index; and after any successful run
prefix the manifest partitions into exactly `chromatogram_id` consecutive
blocks, the g-th holding only rows with id g. -/
theorem C2_sample_ids :
    (∀ (lines : List (List String)) (annotations : Annotations) (out : LstmOutput),
        parse_and_label_skyline_exported_chromatograms_lstm lines annotations =
          Except.ok out →
        out.chromatograms.map Prod.fst = List.range out.chromatograms.length)
    ∧ (∀ (lines : List (List String)) (annotations : Annotations)
        (subsection_width step_size : ℕ) (positive_percentage : ℚ) (out : CnnOutput),
        parse_and_label_skyline_exported_chromatograms_cnn lines annotations
          subsection_width step_size positive_percentage = Except.ok out →
        out.chromatograms.map Prod.fst = List.range out.chromatograms.length)
    ∧ (∀ (subsection_width step_size : ℕ) (st : SubState) (c : List (List ℚ))
        (st2 : SubState),
        sub_close subsection_width step_size st c = Except.ok st2 →
        st2.chromatogram_id = st.chromatogram_id + 1 ∧
        ∃ new, st2.chromatograms = st.chromatograms ++ new ∧
          ∀ r ∈ new, r.1 = st.chromatogram_id)
    ∧ (∀ (annotations : Annotations) (subsection_width step_size : ℕ)
        (positive_percentage : ℚ) (st : SubState) (line : List String) (st2 : SubState),
        sub_step annotations subsection_width step_size positive_percentage st line =
          Except.ok st2 →
        (st2.chromatograms = st.chromatograms ∧
            st2.chromatogram_id = st.chromatogram_id) ∨
        (∃ (c : List (List ℚ)) (st1 : SubState), st.chromatogram = some c ∧
          sub_close subsection_width step_size st c = Except.ok st1 ∧
          st2.chromatograms = st1.chromatograms ∧
          st2.chromatogram_id = st1.chromatogram_id))
    ∧ (∀ (subsection_width step_size : ℕ) (st : SubState) (out : SubOutput),
        sub_flush subsection_width step_size st = Except.ok out →
        ∃ new, out.chromatograms = st.chromatograms ++ new ∧
          ∀ r ∈ new, r.1 = st.chromatogram_id)
    ∧ (∀ (lines : List (List String)) (annotations : Annotations)
        (subsection_width step_size : ℕ) (positive_percentage : ℚ) (st : SubState),
        List.foldlM (sub_step annotations subsection_width step_size positive_percentage)
          initSubState lines = Except.ok st →
        grouped_ids st.chromatograms st.chromatogram_id) :=
  ⟨fun _ _ _ hr => lstm_run_dense hr,
   fun _ _ _ _ _ _ hr => cnn_run_dense hr,
   fun _ _ _ _ _ hcl => sub_close_emits hcl,
   fun _ _ _ _ _ _ _ hs => sub_step_manifest hs,
   fun _ _ _ _ hr => sub_flush_emits hr,
   fun lines _ _ _ _ st hf => sub_fold_grouped lines initSubState st hf grouped_ids_init⟩

theorem C2_sample_ids_witness :
    c7out.chromatograms.map Prod.fst = List.range c7out.chromatograms.length :=
  C2_sample_ids.1 c7lines c7ann c7out (by decide!)

theorem C9_parse_failure_conditions_witness :
    parse_skyline_exported_chromatogram_filenames "nopercent" = none ∧
    parse_line_fields ["f", "A"] = Except.error MungeError.indexError ∧
    (parse_line_fields (traceLine "x_y_c%z.w" "A" "1" "1,2" "oops") =
        Except.error MungeError.valueError ∨
      parse_line_fields (traceLine "x_y_c%z.w" "A" "1" "1,2" "oops") =
        Except.error MungeError.indexError) :=
  ⟨(C9_parse_failure_conditions.1 "nopercent").mpr (Or.inl (by decide!)),
   C9_parse_failure_conditions.2.1 ["f", "A"] (by decide!) (by decide!),
   C9_parse_failure_conditions.2.2.1 (traceLine "x_y_c%z.w" "A" "1" "1,2" "oops") "oops"
     (by decide!) (by decide!) (by decide!)⟩

end Munger
